import Mathlib

/-!
Verification of the sbom-visualizer core against its natural-language
specification.  The Python sources under `sbom_visualizer/` are shallowly
embedded below: pure functions become Lean functions, Python dictionaries
become insertion-ordered association lists, raised exceptions become
`Option`/failure results, and JSON values are modelled by an inductive type.
Fields of pydantic models typed `str` must receive JSON strings; a non-string
JSON value there would raise a pydantic ValidationError at construction time,
which we model as returning `none`.
-/

/-- JSON values, the result of Python `json.loads`. -/
inductive Json where
  | null
  | bool (b : Bool)
  | num (n : Int)
  | str (s : String)
  | arr (elems : List Json)
  | obj (fields : List (String × Json))
deriving Repr

mutual

/-- Structural (Python `==`) equality of JSON values. -/
def Json.beq : Json → Json → Bool
  | .null, .null => true
  | .bool a, .bool b => a == b
  | .num a, .num b => a == b
  | .str a, .str b => a == b
  | .arr xs, .arr ys => Json.beqList xs ys
  | .obj xs, .obj ys => Json.beqObj xs ys
  | _, _ => false

/-- Elementwise equality of JSON arrays. -/
def Json.beqList : List Json → List Json → Bool
  | [], [] => true
  | x :: xs, y :: ys => Json.beq x y && Json.beqList xs ys
  | _, _ => false

/-- Fieldwise equality of JSON objects. -/
def Json.beqObj : List (String × Json) → List (String × Json) → Bool
  | [], [] => true
  | (k1, v1) :: xs, (k2, v2) :: ys => k1 == k2 && Json.beq v1 v2 && Json.beqObj xs ys
  | _, _ => false

end

instance : BEq Json := ⟨Json.beq⟩

/-- First-match association-list lookup, modelling Python `dict.get(key)`
(JSON object keys are unique, so first match is the match). -/
def alookup {α : Type} (l : List (String × α)) (key : String) : Option α :=
  match l with
  | [] => none
  | (k, v) :: rest => if k = key then some v else alookup rest key

/-- Python truthiness of a JSON value (`if x:`). -/
def Json.truthy : Json → Bool
  | .null => false
  | .bool b => b
  | .num n => n != 0
  | .str s => s != ""
  | .arr elems => !elems.isEmpty
  | .obj fields => !fields.isEmpty

/-- The string carried by a JSON string value, `none` otherwise. -/
def Json.getStr? : Json → Option String
  | .str s => some s
  | _ => none

/-- The element list of a JSON array, `none` otherwise. -/
def Json.getArr? : Json → Option (List Json)
  | .arr elems => some elems
  | _ => none

/-- The field list of a JSON object, `none` otherwise. -/
def Json.getObj? : Json → Option (List (String × Json))
  | .obj fields => some fields
  | _ => none

/-- Python `data.get(key)` on the field list of a JSON object, with `None`
(here `Json.null`) for a missing key. -/
def jget (fields : List (String × Json)) (key : String) : Json :=
  (alookup fields key).getD Json.null

/-- Conversion of a JSON value into a pydantic `Optional[str]` field:
`null` (Python `None`) is accepted as absent, a string is accepted, and any
other value is a ValidationError (outer `none`). -/
def optStrField : Json → Option (Option String)
  | .null => some none
  | .str s => some (some s)
  | _ => none

/-- Conversion of a JSON value into a pydantic required `str` field. -/
def strField : Json → Option String
  | .str s => some s
  | _ => none

/-- Whether the character list `sub` occurs contiguously inside `l`,
used to model the Python `in` test on strings. -/
def listContainsSub (sub : List Char) : List Char → Bool
  | [] => decide (sub = [])
  | c :: rest => sub.isPrefixOf (c :: rest) || listContainsSub sub rest

/-- Python `sub in s` for strings (substring containment). -/
def strContains (s sub : String) : Bool :=
  listContainsSub sub.toList s.toList

/-- Python `str.lower()` (ASCII, which covers every string compared by this
program); the Lean core `String.toLower` is defined by well-founded recursion
and does not reduce definitionally, so the embedding uses this structurally
recursive equivalent. -/
def strToLower (s : String) : String :=
  ⟨s.data.map Char.toLower⟩

/-- Python `str.startswith(p)`, structurally recursive for the same
reason. -/
def strStartsWith (s p : String) : Bool :=
  p.data.isPrefixOf s.data

/-- Python `str.endswith(p)`, structurally recursive for the same reason. -/
def strEndsWith (s p : String) : Bool :=
  p.data.reverse.isPrefixOf s.data.reverse

/- ----------------------------------------------------------------------
Data model (`models/sbom_models.py`).  Python `datetime` values are
abstracted: `now` is `datetime.now()` and `fromIso s` the value obtained
from the ISO string `s` by the converter try/except parse (on parse
failure Python falls back to `now`; no verified claim distinguishes the
two outcomes, so the string-tagged constructor stands for the whole
try/except result).  All Python `datetime` instances are truthy.
---------------------------------------------------------------------- -/

/-- Stand-in for Python `datetime` values. -/
inductive PyDateTime where
  | now
  | fromIso (s : String)
deriving Repr, DecidableEq

/-- The `SBOMFormat` enum. -/
inductive SBOMFormat where
  | spdx
  | cyclonedx
  | swid
deriving Repr, DecidableEq

/-- The `License` pydantic model. -/
structure License where
  identifier : String
  name : Option String := none
  url : Option String := none
  is_osi_approved : Option Bool := none
deriving Repr, DecidableEq

/-- The `Dependency` pydantic model. -/
structure Dependency where
  package_id : String
  package_name : String
  version_constraint : Option String := none
  relationship_type : String
deriving Repr, DecidableEq

/-- The `Vulnerability` pydantic model. -/
structure Vulnerability where
  cve_id : Option String := none
  severity : Option String := none
  description : Option String := none
  affected_versions : Option (List String) := none
deriving Repr, DecidableEq

/-- The `Package` pydantic model; `checksums : Dict[str, str]` is an
insertion-ordered association list. -/
structure Package where
  id : String
  name : String
  version : Option String := none
  description : Option String := none
  licenses : List License := []
  dependencies : List Dependency := []
  vulnerabilities : List Vulnerability := []
  purl : Option String := none
  supplier : Option String := none
  homepage : Option String := none
  source_info : Option String := none
  checksums : List (String × String) := []
deriving Repr, DecidableEq

/-- The `SBOMData` pydantic model; `relationships : List[Dict[str, Any]]` and
`metadata : Dict[str, Any]` hold loosely-typed JSON values. -/
structure SBOMData where
  format : SBOMFormat
  version : String
  document_name : String
  document_namespace : Option String := none
  created : PyDateTime
  creator : String
  packages : List Package := []
  relationships : List (List (String × Json)) := []
  metadata : List (String × Json) := []
deriving Repr

/-- The `VerificationResult` pydantic model. -/
structure VerificationResult where
  is_valid : Bool
  issues : List String := []
  warnings : List String := []
  format_detected : Option SBOMFormat := none
  version_detected : Option String := none
deriving Repr, DecidableEq

/-- The `AnalysisResult` pydantic model (histograms as association lists,
`completeness_score` as an exact rational: the Python float arithmetic
involved is a single quotient of small integers). -/
structure AnalysisResult where
  total_packages : Nat
  unique_licenses : List String := []
  license_distribution : List (String × Nat) := []
  dependency_depth : List (String × Nat) := []
  vulnerability_summary : List (String × Nat) := []
  completeness_score : ℚ
  recommendations : List String := []
deriving Repr, DecidableEq

/-- The `PackageInfo` pydantic model. -/
structure PackageInfo where
  name : String
  version : Option String := none
  license : Option String := none
  description : Option String := none
  dependencies : List String := []
  vulnerabilities : List String := []
  supplier : Option String := none
  homepage : Option String := none
deriving Repr, DecidableEq

/-- The `DependencyTree` pydantic model. -/
structure DependencyTree where
  root_packages : List String := []
  tree_structure : List (String × List String) := []
  depth_analysis : List (String × Nat) := []
  circular_dependencies : List (List String) := []
  total_dependencies : Nat
  max_depth : Nat
deriving Repr, DecidableEq

/- ----------------------------------------------------------------------
Format detection (`core/parser.py`, `SBOMParser._detect_format`).
The function reads the file text and then inspects three parse
outcomes; we parameterize the embedding by those outcomes:
`jsonData` is `some d` when `json.loads(content)` succeeds with value `d`
(the code only reaches the key tests when the value supports `in`, i.e.
on JSON objects, the only case the claims exercise), `xmlRootTag` is
`some t` when `ET.fromstring(content)` succeeds with root tag `t`, and
`extension` is `file_path.suffix` (the code lowercases it itself).
---------------------------------------------------------------------- -/

/-- Embeds `SBOMParser._detect_format`: content sniffing (JSON keys, then the XML
root tag, then the extension list) ending in the `return SBOMFormat.SPDX`
default when nothing matched. -/
def detect_format (jsonData : Option Json) (xmlRootTag : Option String)
    (extension : String) : SBOMFormat :=
  match
    (match jsonData with
     | some (Json.obj fields) =>
       if (alookup fields "spdxVersion").isSome then some SBOMFormat.spdx
       else if (alookup fields "bomFormat").isSome
           && jget fields "bomFormat" == Json.str "CycloneDX" then
         some SBOMFormat.cyclonedx
       else if (alookup fields "tagId").isSome
           && (alookup fields "softwareIdentity").isSome then
         some SBOMFormat.swid
       else none
     | _ => none) with
  | some fmt => fmt
  | none =>
    match
      (match xmlRootTag with
       | some tag =>
         if strEndsWith tag "SpdxDocument" || strContains (strToLower tag) "spdx" then
           some SBOMFormat.spdx
         else if strEndsWith tag "bom" || strContains (strToLower tag) "cyclonedx" then
           some SBOMFormat.cyclonedx
         else if strEndsWith tag "SoftwareIdentity" || strContains (strToLower tag) "swid" then
           some SBOMFormat.swid
         else none
       | none => none) with
    | some fmt => fmt
    | none =>
      let ext := strToLower extension
      if ext = ".spdx" ∨ ext = ".spdx.json" ∨ ext = ".spdx.xml" then
        SBOMFormat.spdx
      else if ext = ".cdx" ∨ ext = ".cyclonedx" ∨ ext = ".bom" then
        SBOMFormat.cyclonedx
      else if ext = ".swid" ∨ ext = ".swidtag" then
        SBOMFormat.swid
      else
        -- `logger.warning(...); return SBOMFormat.SPDX` — the default fallback
        SBOMFormat.spdx

/- ----------------------------------------------------------------------
Shared field-access helpers for the converters.  Python `.get(key, dflt)`
into a pydantic required `str` field succeeds with `dflt` when the key is
missing and otherwise demands a JSON string; `.get(key)` into an
`Optional[str]` field accepts a missing key or `null` as `None`.
Iterating `.get(key, [])` demands a JSON array when the key is present.
---------------------------------------------------------------------- -/

/-- Embeds `fields.get(key, dflt)` feeding a required `str` pydantic field. -/
def getStrD (fields : List (String × Json)) (key dflt : String) : Option String :=
  match alookup fields key with
  | none => some dflt
  | some v => strField v

/-- Embeds `fields.get(key)` feeding an `Optional[str]` pydantic field. -/
def getFieldOpt (fields : List (String × Json)) (key : String) :
    Option (Option String) :=
  match alookup fields key with
  | none => some none
  | some v => optStrField v

/-- Embeds `fields.get(key, [])` when the result is iterated: a present
non-array value raises (TypeError/AttributeError), modelled as `none`. -/
def getArrD (fields : List (String × Json)) (key : String) : Option (List Json) :=
  match alookup fields key with
  | none => some []
  | some v => v.getArr?

/- ----------------------------------------------------------------------
SPDX converter (`core/parsers/spdx_parser.py`, class `SPDXParser`).
---------------------------------------------------------------------- -/

/-- One license field of an SPDX package: `spdx_package.get(key)` guarded by
`if license_declared:` truthiness, building
`License(identifier=value, name=value)`; a truthy non-string value would feed
the required `identifier : str` field and fail validation. -/
def spdx_license_entry (p : List (String × Json)) (key : String) :
    Option (List License) :=
  match alookup p key with
  | none => some []
  | some v =>
    if v.truthy then
      match v.getStr? with
      | some s => some [{ identifier := s, name := some s }]
      | none => none
    else some []

/-- The `externalRefs` loop of `_convert_spdx_package`: the first entry with
`referenceType == "purl"` supplies `referenceLocator` as the purl. -/
def spdx_find_purl : List Json → Option (Option String)
  | [] => some none
  | Json.obj ref :: rest =>
    if jget ref "referenceType" == Json.str "purl" then
      optStrField (jget ref "referenceLocator")
    else spdx_find_purl rest
  | _ :: _ => none

/-- Embeds `SPDXParser._convert_spdx_package`.  Note the source sets
`dependencies = []` and `vulnerabilities = []` unconditionally
("Dependencies would need to be extracted from relationships / This is a
simplified implementation"). -/
def convert_spdx_package : Json → Option Package
  | Json.obj p => do
    let licensesD ← spdx_license_entry p "licenseDeclared"
    let licensesC ← spdx_license_entry p "licenseConcluded"
    let extRefs ← getArrD p "externalRefs"
    let purl ← spdx_find_purl extRefs
    let id ←
      (match alookup p "SPDXID" with
       | some v => strField v
       | none =>
         match alookup p "name" with
         | some v => strField v
         | none => none)
    let name ← getStrD p "name" "Unknown"
    let version ← getFieldOpt p "versionInfo"
    let description ← getFieldOpt p "description"
    let supplier ← getFieldOpt p "supplier"
    let homepage ← getFieldOpt p "homepage"
    let source_info ← getFieldOpt p "sourceInfo"
    some { id, name, version, description,
           licenses := licensesD ++ licensesC,
           dependencies := [],
           vulnerabilities := [],
           purl, supplier, homepage, source_info, checksums := [] }
  | _ => none

/-- One entry of the `relationships` loop of
`_convert_spdx_json_to_sbom_data`: `rel.get(...)` on the three SPDX
relationship keys (missing keys stored as Python `None`). -/
def spdx_rel_record : Json → Option (List (String × Json))
  | Json.obj r =>
    some [("spdx_element_id", jget r "spdxElementId"),
          ("related_spdx_element_id", jget r "relatedSpdxElementId"),
          ("relationship_type", jget r "relationshipType")]
  | _ => none

/-- The `creationInfo` block of `_convert_spdx_json_to_sbom_data`: defaults
`creator = "Unknown"`, `created = datetime.now()`, overridden from
`creators[0]` and the ISO `created` string when present and truthy. -/
def spdx_creation_info (data : List (String × Json)) :
    Option (String × PyDateTime) :=
  let ci := jget data "creationInfo"
  if ci.truthy then
    match ci with
    | Json.obj cif => do
      let creators ← getArrD cif "creators"
      let creator ←
        (match creators with
         | c :: _ => strField c
         | [] => some "Unknown")
      let created ←
        (let cv := jget cif "created"
         if cv.truthy then
           match cv with
           | Json.str s => some (PyDateTime.fromIso s)
           | _ => none
         else some PyDateTime.now)
      some (creator, created)
    | _ => none
  else some ("Unknown", PyDateTime.now)

/-- Embeds `SPDXParser._convert_spdx_json_to_sbom_data`. -/
def convert_spdx_json_to_sbom_data : Json → Option SBOMData
  | Json.obj data => do
    let document_name ← getStrD data "documentName" "Unknown SPDX Document"
    let (creator, created) ← spdx_creation_info data
    let spdx_packages ← getArrD data "packages"
    let packages ← spdx_packages.mapM convert_spdx_package
    let spdx_relationships ← getArrD data "relationships"
    let relationships ← spdx_relationships.mapM spdx_rel_record
    let version ← getStrD data "spdxVersion" "SPDX-2.3"
    let document_namespace ← getFieldOpt data "documentNamespace"
    some { format := SBOMFormat.spdx, version, document_name,
           document_namespace, created, creator, packages, relationships,
           metadata := [("spdx_version", jget data "spdxVersion"),
                        ("data_license", jget data "dataLicense")] }
  | _ => none

/- ----------------------------------------------------------------------
CycloneDX converter (`core/parsers/cyclonedx_parser.py`,
class `CycloneDXParser`).
---------------------------------------------------------------------- -/

/-- The `licenses` loop of `_convert_cyclonedx_component`: entries carrying a
`license` object become `License(identifier=..id, name=..name, url=..url)`;
`identifier` is a required `str`, so a missing `id` fails validation. -/
def cdx_licenses : List Json → Option (List License)
  | [] => some []
  | Json.obj li :: rest =>
    if (alookup li "license").isSome then
      match jget li "license" with
      | Json.obj ld => do
        let ident ← strField (jget ld "id")
        let nm ← optStrField (jget ld "name")
        let u ← optStrField (jget ld "url")
        let restL ← cdx_licenses rest
        some ({ identifier := ident, name := nm, url := u } :: restL)
      | _ => none
    else cdx_licenses rest
  | _ :: _ => none

/-- One entry of the `vulnerabilities` loop of
`_convert_cyclonedx_component`: severity comes from the first rating when
`ratings` is truthy, and `affects` defaults to `[]`. -/
def cdx_vulnerability : Json → Option Vulnerability
  | Json.obj v => do
    let cve ← optStrField (jget v "id")
    let severity ←
      (let r := jget v "ratings"
       if r.truthy then
         match r with
         | Json.arr (Json.obj r0 :: _) => optStrField (jget r0 "severity")
         | _ => none
       else some none)
    let desc ← optStrField (jget v "description")
    let affected ←
      (match alookup v "affects" with
       | none => some (some [])
       | some Json.null => some none
       | some (Json.arr xs) => (xs.mapM Json.getStr?).map some
       | some _ => none)
    some { cve_id := cve, severity, description := desc,
           affected_versions := affected }
  | _ => none

/-- The `externalReferences` loop of `_convert_cyclonedx_component`: the
first entry with `type == "purl"` supplies `url` as the purl. -/
def cdx_find_purl : List Json → Option (Option String)
  | [] => some none
  | Json.obj ref :: rest =>
    if jget ref "type" == Json.str "purl" then
      optStrField (jget ref "url")
    else cdx_find_purl rest
  | _ :: _ => none

/-- The `hashes` comprehension of `_convert_cyclonedx_component`:
`{h.get("alg"): h.get("content")}` feeding `checksums : Dict[str, str]`. -/
def cdx_checksums : List Json → Option (List (String × String))
  | [] => some []
  | Json.obj h :: rest => do
    let alg ← strField (jget h "alg")
    let content ← strField (jget h "content")
    let restC ← cdx_checksums rest
    some ((alg, content) :: restC)
  | _ :: _ => none

/-- Embeds `CycloneDXParser._convert_cyclonedx_component`. -/
def convert_cyclonedx_component : Json → Option Package
  | Json.obj c => do
    let licEntries ← getArrD c "licenses"
    let licenses ← cdx_licenses licEntries
    let vulnEntries ← getArrD c "vulnerabilities"
    let vulnerabilities ← vulnEntries.mapM cdx_vulnerability
    let extRefs ← getArrD c "externalReferences"
    let purl ← cdx_find_purl extRefs
    let id ←
      (match alookup c "bomRef" with
       | some v => strField v
       | none =>
         match alookup c "name" with
         | some v => strField v
         | none => none)
    let name ←
      (match alookup c "name" with
       | some v => strField v
       | none => none)
    let version ← getFieldOpt c "version"
    let description ← getFieldOpt c "description"
    let supplier ← getFieldOpt c "publisher"
    let homepage ←
      (if (jget c "externalReferences").truthy then
         match extRefs with
         | Json.obj r :: _ => optStrField (jget r "url")
         | _ => none
       else some none)
    let checksums ← cdx_checksums (← getArrD c "hashes")
    some { id, name, version, description, licenses,
           dependencies := [],
           vulnerabilities, purl, supplier, homepage,
           source_info := none, checksums }
  | _ => none

/-- The `dependencies` loop of `_convert_cyclonedx_to_sbom_data`: each
entry field `ref` paired with every member of its `dependsOn` list. -/
def cdx_relationships : List Json → Option (List (List (String × Json)))
  | [] => some []
  | Json.obj rel :: rest => do
    let r := (alookup rel "ref").getD (Json.str "")
    let depends_on ←
      (match alookup rel "dependsOn" with
       | none => some []
       | some v => v.getArr?)
    let restR ← cdx_relationships rest
    some (depends_on.map (fun dep => [("ref", r), ("dependsOn", dep)]) ++ restR)
  | _ :: _ => none

/-- Embeds `CycloneDXParser._convert_cyclonedx_to_sbom_data`.  Note the absence of
any `bomFormat` validation: `data.get("bomFormat", "CycloneDX")` silently
defaults when the marker is missing. -/
def convert_cyclonedx_to_sbom_data : Json → Option SBOMData
  | Json.obj data => do
    let md ←
      (match alookup data "metadata" with
       | none => some []
       | some (Json.obj m) => some m
       | some _ => none)
    let bom_format := (alookup data "bomFormat").getD (Json.str "CycloneDX")
    let spec_version := (alookup data "specVersion").getD (Json.str "1.5")
    let versionStr ← strField spec_version
    let created ←
      (match alookup md "timestamp" with
       | some (Json.str s) => some (PyDateTime.fromIso s)
       | some _ => none
       | none => some PyDateTime.now)
    let creator ←
      (match alookup md "tools" with
       | some t =>
         if t.truthy then
           match t with
           | Json.arr (Json.obj tool :: _) => getStrD tool "name" "Unknown"
           | _ => none
         else some "Unknown"
       | none => some "Unknown")
    let document_name ←
      (match alookup md "component" with
       | none => some "CycloneDX BOM"
       | some (Json.obj comp) => getStrD comp "name" "CycloneDX BOM"
       | some _ => none)
    let components ← getArrD data "components"
    let packages ← components.mapM convert_cyclonedx_component
    let relEntries ← getArrD data "dependencies"
    let relationships ← cdx_relationships relEntries
    some { format := SBOMFormat.cyclonedx, version := versionStr,
           document_name, document_namespace := none, created, creator,
           packages, relationships,
           metadata := [("bomFormat", bom_format),
                        ("specVersion", spec_version),
                        ("serialNumber", jget md "serialNumber"),
                        ("version", jget md "version")] }
  | _ => none

/- ----------------------------------------------------------------------
Analyzer (`core/analyzer.py`, class `SBOMAnalyzer`).  Python dicts,
`collections.Counter` and `defaultdict(list)` are insertion-ordered
association lists here.
---------------------------------------------------------------------- -/

/-- Embeds `Counter[key] += 1`. -/
def counterAdd (c : List (String × Nat)) (key : String) : List (String × Nat) :=
  match c with
  | [] => [(key, 1)]
  | (k, n) :: rest =>
    if k = key then (k, n + 1) :: rest else (k, n) :: counterAdd rest key

/-- Dict assignment `d[key] = v` (overwrite in place, else append). -/
def dictSet {α : Type} (d : List (String × α)) (key : String) (v : α) :
    List (String × α) :=
  match d with
  | [] => [(key, v)]
  | (k, w) :: rest =>
    if k = key then (k, v) :: rest else (k, w) :: dictSet rest key v

/-- Embeds `defaultdict(list)` append `g[key].append(v)`. -/
def dictAppend (g : List (String × List String)) (key v : String) :
    List (String × List String) :=
  match g with
  | [] => [(key, [v])]
  | (k, vs) :: rest =>
    if k = key then (k, vs ++ [v]) :: rest else (k, vs) :: dictAppend rest key v

/-- Python truthiness of an `Optional[str]` attribute (`if x:`). -/
def optTruthy : Option String → Bool
  | none => false
  | some s => s != ""

/-- Embeds `SBOMAnalyzer._analyze_licenses`: license histogram plus the unique
identifier set.  CPython materializes `list(unique_licenses)` from a hash
set in unspecified order; first-occurrence order stands in for it here and
no verified claim depends on that ordering. -/
def analyze_licenses (sbom : SBOMData) : List String × List (String × Nat) :=
  sbom.packages.foldl
    (fun acc p =>
      p.licenses.foldl
        (fun acc2 li =>
          if li.identifier != "" then
            (if li.identifier ∈ acc2.1 then acc2.1 else acc2.1 ++ [li.identifier],
             counterAdd acc2.2 li.identifier)
          else acc2)
        acc)
    ([], [])

/-- All names mentioned by an adjacency map (keys and targets); its length
bounds the recursion depth of the visited-set-guarded traversals below. -/
def graphNames (graph : List (String × List String)) : List String :=
  graph.foldl (fun acc kv => acc ++ [kv.1] ++ kv.2) []

/-- The inner `dfs` of `SBOMAnalyzer._calculate_package_depth`: the visited
set is threaded through the traversal; the fuel argument only bounds
recursion and is never exhausted when it exceeds the number of distinct
names (every recursive call first adds a fresh name to the visited set). -/
def analyzer_dfs (graph : List (String × List String)) :
    Nat → String → Nat → List String → Nat × List String
  | 0, _, depth, visited => (depth, visited)
  | fuel + 1, node, depth, visited =>
    if node ∈ visited then (depth, visited)
    else
      ((alookup graph node).getD []).foldl
        (fun acc dep =>
          let r := analyzer_dfs graph fuel dep (depth + 1) acc.2
          (max acc.1 r.1, r.2))
        (depth, node :: visited)

/-- Embeds `SBOMAnalyzer._calculate_package_depth`: fresh visited set per call. -/
def calculate_package_depth (package_id : String)
    (graph : List (String × List String)) : Nat :=
  (analyzer_dfs graph ((graphNames graph).length + 1) package_id 0 []).1

/-- Embeds `SBOMAnalyzer._analyze_dependencies`: id-keyed dependency graph, then a
name-keyed depth map. -/
def analyze_dependencies (sbom : SBOMData) : List (String × Nat) :=
  let dependency_graph :=
    sbom.packages.foldl
      (fun g p => p.dependencies.foldl (fun g d => dictAppend g p.id d.package_id) g)
      []
  sbom.packages.foldl
    (fun dd p => dictSet dd p.name (calculate_package_depth p.id dependency_graph))
    []

/-- Embeds `SBOMAnalyzer._analyze_vulnerabilities`: severity histogram with
`vuln.severity or "unknown"` as the key (no case folding). -/
def analyze_vulnerabilities (sbom : SBOMData) : List (String × Nat) :=
  sbom.packages.foldl
    (fun c p =>
      p.vulnerabilities.foldl
        (fun c v =>
          counterAdd c
            (match v.severity with
             | some s => if s != "" then s else "unknown"
             | none => "unknown"))
        c)
    []

/-- The per-package points of `SBOMAnalyzer._calculate_completeness`. -/
def package_completeness_points (p : Package) : Nat :=
  (if p.name != "" then 20 else 0) +
  (if optTruthy p.version then 20 else 0) +
  (if optTruthy p.description then 20 else 0) +
  (if !p.licenses.isEmpty then 20 else 0) +
  (if !p.dependencies.isEmpty then 10 else 0) +
  (if optTruthy p.supplier || optTruthy p.homepage || optTruthy p.purl then 10 else 0)

/-- Embeds `SBOMAnalyzer._calculate_completeness`: `(total_score / max_score) * 100`
with `max_score = len(packages) * 100`, and `0.0` for an empty package
list. -/
def calculate_completeness (sbom : SBOMData) : ℚ :=
  if sbom.packages.isEmpty then 0
  else
    let total_score := (sbom.packages.map package_completeness_points).sum
    let max_score := sbom.packages.length * 100
    ((total_score : ℚ) / (max_score : ℚ)) * 100

/-- Embeds `SBOMAnalyzer._generate_recommendations`. -/
def generate_recommendations (sbom : SBOMData) (completeness_score : ℚ) :
    List String :=
  let recs : List String :=
    if completeness_score < 50 then
      ["SBOM completeness is low. Consider adding missing package information."]
    else if completeness_score < 80 then
      ["SBOM completeness is moderate. Consider adding more detailed package information."]
    else []
  let packages_without_licenses :=
    (sbom.packages.filter (fun p => p.licenses.isEmpty)).map (·.name)
  let recs := recs ++
    (if !packages_without_licenses.isEmpty then
       ["Add license information for packages: " ++
         String.intercalate ", " (packages_without_licenses.take 5)]
     else [])
  let packages_without_deps :=
    (sbom.packages.filter
      (fun p => p.dependencies.isEmpty && decide (sbom.packages.length > 1))).map (·.name)
  let recs := recs ++
    (if !packages_without_deps.isEmpty then
       ["Add dependency information for packages: " ++
         String.intercalate ", " (packages_without_deps.take 5)]
     else [])
  let packages_without_version :=
    (sbom.packages.filter (fun p => !optTruthy p.version)).map (·.name)
  let recs := recs ++
    (if !packages_without_version.isEmpty then
       ["Add version information for packages: " ++
         String.intercalate ", " (packages_without_version.take 5)]
     else [])
  let total_vulnerabilities := (sbom.packages.map (·.vulnerabilities.length)).sum
  recs ++
    (if total_vulnerabilities > 0 then
       ["Review " ++ toString total_vulnerabilities ++ " vulnerabilities found in the SBOM."]
     else [])

/-- Embeds `SBOMAnalyzer.analyze`. -/
def analyze (sbom : SBOMData) : AnalysisResult :=
  let total_packages := sbom.packages.length
  let lic := analyze_licenses sbom
  let dependency_depth := analyze_dependencies sbom
  let vulnerability_summary := analyze_vulnerabilities sbom
  let completeness_score := calculate_completeness sbom
  let recommendations := generate_recommendations sbom completeness_score
  { total_packages, unique_licenses := lic.1, license_distribution := lic.2,
    dependency_depth, vulnerability_summary, completeness_score,
    recommendations }

/- ----------------------------------------------------------------------
Dependency viewer (`core/dependency_viewer.py`, class `DependencyViewer`).
---------------------------------------------------------------------- -/

/-- Embeds `DependencyViewer._build_dependency_graph`: name-keyed adjacency from
the dependency list of every package (the loop over `sbom_data.relationships`
in the source is a `pass` and adds nothing). -/
def build_dependency_graph (sbom : SBOMData) : List (String × List String) :=
  sbom.packages.foldl
    (fun g p => p.dependencies.foldl (fun g d => dictAppend g p.name d.package_name) g)
    []

/-- Embeds `DependencyViewer._find_root_packages`: packages whose name occurs in no
adjacency-list value ("no incoming dependencies" per its docstring). -/
def find_root_packages (sbom : SBOMData)
    (dependency_graph : List (String × List String)) : List String :=
  let all_dependents := dependency_graph.foldl (fun s kv => s ++ kv.2) []
  (sbom.packages.filter (fun p => !all_dependents.contains p.name)).map (·.name)

/-- The inner `calculate_depth` of
`DependencyViewer._calculate_depth_analysis`: visited set and depth map are
shared across the whole analysis (both are threaded through); fuel as in
`analyzer_dfs`. -/
def viewer_calculate_depth (graph : List (String × List String)) :
    Nat → String → Nat → List String → List (String × Nat) →
    Nat × List String × List (String × Nat)
  | 0, _, depth, visited, analysis => (depth, visited, analysis)
  | fuel + 1, package_name, depth, visited, analysis =>
    if package_name ∈ visited then (depth, visited, analysis)
    else
      let r :=
        ((alookup graph package_name).getD []).foldl
          (fun acc dep =>
            let s := viewer_calculate_depth graph fuel dep (depth + 1) acc.2.1 acc.2.2
            (max acc.1 s.1, s.2.1, s.2.2))
          (depth, package_name :: visited, analysis)
      (r.1, r.2.1, dictSet r.2.2 package_name r.1)

/-- Embeds `DependencyViewer._calculate_depth_analysis`: one shared visited set for
all packages, traversing each not-yet-visited package name from depth 0. -/
def calculate_depth_analysis (sbom : SBOMData)
    (dependency_graph : List (String × List String)) : List (String × Nat) :=
  let fuel := (graphNames dependency_graph).length + 1
  (sbom.packages.foldl
    (fun (st : List String × List (String × Nat)) p =>
      if p.name ∈ st.1 then st
      else
        let r := viewer_calculate_depth dependency_graph fuel p.name 0 st.1 st.2
        (r.2.1, r.2.2))
    ([], [])).2

/-- The inner `dfs` of `DependencyViewer._find_circular_dependencies`:
each recursive call receives `path.copy()`, while `visited`, `rec_stack`
and the collected cycles are shared (threaded). -/
def viewer_dfs_cycles (graph : List (String × List String)) :
    Nat → String → List String →
    List String × List String × List (List String) →
    List String × List String × List (List String)
  | 0, _, _, st => st
  | fuel + 1, node, path, (visited, rec_stack, circular) =>
    if node ∈ rec_stack then
      let cycle_start := path.indexOf node
      (visited, rec_stack, circular ++ [path.drop cycle_start ++ [node]])
    else if node ∈ visited then (visited, rec_stack, circular)
    else
      let path := path ++ [node]
      let st :=
        ((alookup graph node).getD []).foldl
          (fun acc neighbor => viewer_dfs_cycles graph fuel neighbor path acc)
          (node :: visited, node :: rec_stack, circular)
      (st.1, st.2.1.erase node, st.2.2)

/-- Embeds `DependencyViewer._find_circular_dependencies`: DFS over the adjacency
map keys in insertion order. -/
def find_circular_dependencies (graph : List (String × List String)) :
    List (List String) :=
  let fuel := (graphNames graph).length + 1
  (graph.foldl
    (fun (st : List String × List String × List (List String)) kv =>
      if kv.1 ∈ st.1 then st
      else viewer_dfs_cycles graph fuel kv.1 [] st)
    ([], [], [])).2.2

/-- Embeds `DependencyViewer.generate_tree`.  `max(values) if dict else 0` over
naturals equals a fold of `max` from 0 over the values. -/
def generate_tree (sbom : SBOMData) : DependencyTree :=
  let dependency_graph := build_dependency_graph sbom
  let root_packages := find_root_packages sbom dependency_graph
  let depth_analysis := calculate_depth_analysis sbom dependency_graph
  let circular_dependencies := find_circular_dependencies dependency_graph
  let total_dependencies := (dependency_graph.map (·.2.length)).sum
  let max_depth :=
    if depth_analysis.isEmpty then 0
    else (depth_analysis.map (·.2)).foldl max 0
  { root_packages, tree_structure := dependency_graph, depth_analysis,
    circular_dependencies, total_dependencies, max_depth }

/- ----------------------------------------------------------------------
Package checker (`core/package_checker.py`, class `PackageChecker`).
Fuzzy matching delegates to the Python standard library function
`difflib.get_close_matches(word, possibilities, n, cutoff)`, which keeps
the possibilities whose similarity ratio to `word` reaches `cutoff` and
returns the `n` largest of them (largest `(ratio, possibility)` pairs in
tuple order).  The `SequenceMatcher` ratio itself is library code outside
this repository, so the embedding is parameterized by a
`ratio : String → String → ℚ` function.
---------------------------------------------------------------------- -/

/-- Descending comparison on `(ratio, possibility)` pairs in Python tuple
order. -/
def pairGe (a b : ℚ × String) : Bool :=
  decide (b.1 < a.1) || (a.1 == b.1 && !decide (a.2 < b.2))

/-- Insertion step of a descending sort on scored possibilities. -/
def insertDesc (x : ℚ × String) : List (ℚ × String) → List (ℚ × String)
  | [] => [x]
  | y :: ys => if pairGe x y then x :: y :: ys else y :: insertDesc x ys

/-- Descending sort on scored possibilities. -/
def sortDesc : List (ℚ × String) → List (ℚ × String)
  | [] => []
  | x :: xs => insertDesc x (sortDesc xs)

/-- Modelled from the Python standard library `difflib.get_close_matches`:
filter by `ratio ≥ cutoff`, select the `n` largest scored pairs, return the
possibilities. -/
def get_close_matches (ratio : String → String → ℚ) (word : String)
    (possibilities : List String) (n : Nat) (cutoff : ℚ) : List String :=
  let result := possibilities.filterMap
    (fun x => if cutoff ≤ ratio word x then some (ratio word x, x) else none)
  ((sortDesc result).take n).map (·.2)

/-- Embeds `PackageChecker._find_exact_match`: first package (document order) whose
name equals the query case-insensitively. -/
def find_exact_loop (package_name : String) : List Package → Option Package
  | [] => none
  | p :: rest =>
    if strToLower p.name = strToLower package_name then some p
    else find_exact_loop package_name rest

/-- Embeds `PackageChecker._find_exact_match` over a document. -/
def find_exact_match (sbom : SBOMData) (package_name : String) : Option Package :=
  find_exact_loop package_name sbom.packages

/-- Embeds `PackageChecker._find_fuzzy_match`: lowercased query against lowercased
names, `n=1`, `cutoff=0.6`; on a hit, the first package whose lowercased
name equals the matched name. -/
def find_fuzzy_match (ratio : String → String → ℚ) (sbom : SBOMData)
    (package_name : String) : Option Package :=
  let package_names := sbom.packages.map (·.name)
  let close := get_close_matches ratio (strToLower package_name)
    (package_names.map strToLower) 1 (3 / 5)
  match close with
  | matched_name :: _ =>
    sbom.packages.find? (fun p => strToLower p.name == matched_name)
  | [] => none

/-- Embeds `PackageChecker._create_package_info` (its `sbom_data` parameter is
unused in the source). -/
def create_package_info (package : Package) (_sbom : SBOMData) : PackageInfo :=
  let primary_license :=
    match package.licenses with
    | li :: _ => some li.identifier
    | [] => none
  let dependencies := package.dependencies.map (·.package_name)
  let vulnerabilities := package.vulnerabilities.map
    (fun v =>
      (match v.cve_id with
       | some s => if s != "" then s else "Unknown"
       | none => "Unknown") ++
      (match v.severity with
       | some s => if s != "" then " (" ++ s ++ ")" else ""
       | none => ""))
  { name := package.name, version := package.version,
    license := primary_license, description := package.description,
    dependencies, vulnerabilities, supplier := package.supplier,
    homepage := package.homepage }

/-- Embeds `PackageChecker.get_package_info`: exact match first, fuzzy only when it
found nothing, `None` when both fail. -/
def get_package_info (ratio : String → String → ℚ) (sbom : SBOMData)
    (package_name : String) : Option PackageInfo :=
  let package :=
    match find_exact_match sbom package_name with
    | none => find_fuzzy_match ratio sbom package_name
    | some p => some p
  match package with
  | some p => some (create_package_info p sbom)
  | none => none

/- ----------------------------------------------------------------------
Verifier (`core/verifier.py`, class `SBOMVerifier`).
---------------------------------------------------------------------- -/

/-- Embeds `SBOMVerifier._verify_format`.  The source also has
`if not sbom_data.created: issues.append("Missing creation timestamp")`,
but Python `datetime` instances are always truthy, so that branch can
never fire and contributes nothing. -/
def verify_format (sbom : SBOMData) : List String :=
  (if sbom.document_name = "" then ["Missing document name"] else []) ++
  (if sbom.creator = "" then ["Missing creator information"] else []) ++
  (match sbom.format with
   | SBOMFormat.spdx =>
     if !strStartsWith sbom.version "SPDX-" then ["Invalid SPDX version format"] else []
   | SBOMFormat.cyclonedx =>
     if !strStartsWith sbom.version "1." then ["Invalid CycloneDX version format"] else []
   | SBOMFormat.swid => [])

/-- Embeds `SBOMVerifier._verify_licenses`. -/
def verify_licenses (sbom : SBOMData) : List String :=
  let packages_without_licenses :=
    (sbom.packages.filter (fun p => p.licenses.isEmpty)).map (·.name)
  let invalid_licenses :=
    sbom.packages.foldl
      (fun acc p =>
        if p.licenses.isEmpty then acc
        else acc ++ (p.licenses.filter (fun li => li.identifier = "")).map
          (fun _ => p.name ++ ": missing license identifier"))
      []
  (if !packages_without_licenses.isEmpty then
     ["Packages without license information: " ++
       String.intercalate ", " packages_without_licenses]
   else []) ++ invalid_licenses

/-- Embeds `SBOMVerifier._find_circular_dependencies`: the source returns `[]`
unconditionally ("This is a simplified implementation"). -/
def verifier_find_circular_dependencies (_sbom : SBOMData) : List String := []

/-- Embeds `SBOMVerifier._verify_dependencies`.  The circular-dependency issue
branch is unreachable because `_find_circular_dependencies` always returns
the empty list (its Python f-string list formatting is therefore
immaterial). -/
def verify_dependencies (sbom : SBOMData) : List String :=
  let circular_deps := verifier_find_circular_dependencies sbom
  let packages_without_deps :=
    (sbom.packages.filter
      (fun p => p.dependencies.isEmpty && decide (sbom.packages.length > 1))).map (·.name)
  (if !circular_deps.isEmpty then
     ["Circular dependencies detected: " ++ String.intercalate ", " circular_deps]
   else []) ++
  (if !packages_without_deps.isEmpty then
     ["Packages without dependency information: " ++
       String.intercalate ", " packages_without_deps]
   else [])

/-- Embeds `SBOMVerifier._verify_packages`. -/
def verify_packages (sbom : SBOMData) : List String :=
  let packages_without_version :=
    (sbom.packages.filter (fun p => !optTruthy p.version)).map (·.name)
  let packages_without_description :=
    (sbom.packages.filter (fun p => !optTruthy p.description)).map (·.name)
  (if !packages_without_version.isEmpty then
     ["Packages without version information: " ++
       String.intercalate ", " packages_without_version]
   else []) ++
  (if !packages_without_description.isEmpty then
     ["Packages without description: " ++
       String.intercalate ", " packages_without_description]
   else [])

/-- Embeds `SBOMVerifier._verify_metadata`. -/
def verify_metadata (sbom : SBOMData) : List String :=
  if sbom.metadata.isEmpty then ["Missing metadata information"] else []

/-- Embeds `SBOMVerifier.verify`: the issues of the five checks accumulated in order,
`warnings` never written, `is_valid = (len(issues) == 0)`. -/
def verify (sbom : SBOMData) : VerificationResult :=
  let issues :=
    verify_format sbom ++ verify_licenses sbom ++ verify_dependencies sbom ++
    verify_packages sbom ++ verify_metadata sbom
  { is_valid := issues.length == 0, issues, warnings := [],
    format_detected := some sbom.format,
    version_detected := some sbom.version }

/- ----------------------------------------------------------------------
Concrete documents used by the claims (mirroring the repository test
test fixtures where one exists).
---------------------------------------------------------------------- -/

/-- The `flask → requests → urllib3` document of
`tests/test_dependency_viewer.py` (packages listed in exactly that
order). -/
def sampleSbom : SBOMData :=
  { format := SBOMFormat.spdx, version := "2.3",
    document_name := "Test SBOM",
    document_namespace := some "https://example.com/test",
    created := PyDateTime.now, creator := "Test Creator",
    packages :=
      [{ id := "pkg1", name := "flask", version := some "3.0.0",
         description := some "Web framework",
         licenses := [{ identifier := "BSD-3-Clause" }],
         dependencies :=
           [{ package_id := "pkg2", package_name := "requests",
              relationship_type := "DEPENDS_ON" }] },
       { id := "pkg2", name := "requests", version := some "2.31.0",
         description := some "HTTP library",
         licenses := [{ identifier := "Apache-2.0" }],
         dependencies :=
           [{ package_id := "pkg3", package_name := "urllib3",
              relationship_type := "DEPENDS_ON" }] },
       { id := "pkg3", name := "urllib3", version := some "2.0.7",
         description := some "HTTP library",
         licenses := [{ identifier := "MIT" }],
         dependencies := [] }],
    relationships := [], metadata := [] }

/-- A hand-built SPDX JSON document with 3 packages and 2 `DEPENDS_ON`
relationships. -/
def spdxDoc3 : Json :=
  Json.obj
    [("spdxVersion", Json.str "SPDX-2.3"),
     ("documentName", Json.str "Test SBOM"),
     ("documentNamespace", Json.str "https://example.com/test"),
     ("creationInfo", Json.obj
        [("creators", Json.arr [Json.str "Tool: Test"]),
         ("created", Json.str "2024-01-01T00:00:00Z")]),
     ("packages", Json.arr
        [Json.obj
           [("SPDXID", Json.str "SPDXRef-Package-flask"),
            ("name", Json.str "flask"),
            ("versionInfo", Json.str "3.0.0"),
            ("licenseDeclared", Json.str "BSD-3-Clause")],
         Json.obj
           [("SPDXID", Json.str "SPDXRef-Package-requests"),
            ("name", Json.str "requests"),
            ("versionInfo", Json.str "2.31.0"),
            ("licenseDeclared", Json.str "Apache-2.0")],
         Json.obj
           [("SPDXID", Json.str "SPDXRef-Package-urllib3"),
            ("name", Json.str "urllib3"),
            ("versionInfo", Json.str "2.0.7"),
            ("licenseDeclared", Json.str "MIT")]]),
     ("relationships", Json.arr
        [Json.obj
           [("spdxElementId", Json.str "SPDXRef-Package-flask"),
            ("relatedSpdxElementId", Json.str "SPDXRef-Package-requests"),
            ("relationshipType", Json.str "DEPENDS_ON")],
         Json.obj
           [("spdxElementId", Json.str "SPDXRef-Package-requests"),
            ("relatedSpdxElementId", Json.str "SPDXRef-Package-urllib3"),
            ("relationshipType", Json.str "DEPENDS_ON")]])]

/-- A CycloneDX JSON document with the required `bomFormat` marker
missing. -/
def cdxNoBomFormat : Json :=
  Json.obj [("specVersion", Json.str "1.5"), ("components", Json.arr [])]

/-- A document with one package carrying one vulnerability whose severity
is the upper-case string "HIGH" (as in `tests/test_analyzer.py`). -/
def docHighVuln : SBOMData :=
  { format := SBOMFormat.spdx, version := "SPDX-2.3",
    document_name := "Vulnerable SBOM",
    created := PyDateTime.now, creator := "Test Creator",
    packages :=
      [{ id := "pkg1", name := "vulnerable-package", version := some "1.0.0",
         vulnerabilities :=
           [{ cve_id := some "CVE-2024-0001", severity := some "HIGH",
              description := some "High severity vulnerability" }] }],
    relationships := [], metadata := [] }

/-- A document with an empty document name and an empty package list. -/
def docNoName : SBOMData :=
  { format := SBOMFormat.spdx, version := "SPDX-2.3",
    document_name := "", created := PyDateTime.now, creator := "Test Creator",
    packages := [], relationships := [],
    metadata := [("spdx_version", Json.str "SPDX-2.3")] }

/-- A one-package document used to exercise case-insensitive lookup. -/
def docLookup : SBOMData :=
  { format := SBOMFormat.spdx, version := "SPDX-2.3",
    document_name := "Lookup SBOM",
    created := PyDateTime.now, creator := "Test Creator",
    packages :=
      [{ id := "pkg1", name := "Flask", version := some "3.0.0" }],
    relationships := [], metadata := [] }

/-- A document with no packages at all. -/
def docEmpty : SBOMData :=
  { format := SBOMFormat.spdx, version := "SPDX-2.3",
    document_name := "Empty SBOM",
    created := PyDateTime.now, creator := "Test Creator",
    packages := [], relationships := [], metadata := [] }

/- ----------------------------------------------------------------------
Spec-side definition used by claim C6 (refinement comparison).
---------------------------------------------------------------------- -/

/-- Modelled from the specification wording for claim C6: the document
completeness score is the arithmetic mean of the per-package scores (and 0
for an empty document), with the per-package awards of name 20, version 20,
description 20, at least one license 20, at least one dependency 10, and
any of supplier/homepage/purl 10. -/
def completeness_mean_spec (sbom : SBOMData) : ℚ :=
  if sbom.packages.isEmpty then 0
  else (sbom.packages.map (fun p => (package_completeness_points p : ℚ))).sum /
    (sbom.packages.length : ℚ)

/-- Per-package completeness points never exceed 100. -/
theorem package_completeness_points_le (p : Package) :
    package_completeness_points p ≤ 100 := by
  unfold package_completeness_points
  split_ifs <;> omega

/- ----------------------------------------------------------------------
Helper lemmas for the package-lookup claim C8.
---------------------------------------------------------------------- -/

/-- Exact matching returns the first case-insensitive hit in document
order. -/
theorem find_exact_loop_append (q : String) (l1 l2 : List Package) (p : Package)
    (hp : strToLower p.name = strToLower q)
    (hl1 : ∀ r ∈ l1, strToLower r.name ≠ strToLower q) :
    find_exact_loop q (l1 ++ p :: l2) = some p := by
  induction l1 with
  | nil => simp [find_exact_loop, hp]
  | cons r rest ih =>
    have hr := hl1 r (by simp)
    rw [List.cons_append]
    unfold find_exact_loop
    rw [if_neg hr]
    exact ih (fun x hx => hl1 x (by simp [hx]))

/-- Exact matching misses when no package name matches case-insensitively. -/
theorem find_exact_loop_none (q : String) (l : List Package)
    (h : ∀ r ∈ l, strToLower r.name ≠ strToLower q) :
    find_exact_loop q l = none := by
  induction l with
  | nil => rfl
  | cons r rest ih =>
    unfold find_exact_loop
    rw [if_neg (h r (by simp))]
    exact ih (fun x hx => h x (by simp [hx]))

/-- Fuzzy matching returns nothing when every candidate scores below the
0.6 cutoff. -/
theorem find_fuzzy_match_none (ratio : String → String → ℚ) (sbom : SBOMData)
    (q : String)
    (hrat : ∀ p ∈ sbom.packages, ratio (strToLower q) (strToLower p.name) < 3 / 5) :
    find_fuzzy_match ratio sbom q = none := by
  unfold find_fuzzy_match get_close_matches
  have hfil : ((sbom.packages.map (·.name)).map strToLower).filterMap
      (fun x => if (3 : ℚ) / 5 ≤ ratio (strToLower q) x then
        some (ratio (strToLower q) x, x) else none) = [] := by
    rw [List.filterMap_eq_nil_iff]
    intro x hx
    rw [List.map_map, List.mem_map] at hx
    obtain ⟨p, hp, rfl⟩ := hx
    simp only [Function.comp_apply]
    rw [if_neg (not_le.mpr (hrat p hp))]
  simp only [hfil]
  rfl

/- ----------------------------------------------------------------------
The claims.
---------------------------------------------------------------------- -/

/-- Claim C1.  The claim states that format detection raises a
FormatUndetected error (never falling back to a default format) for text
that is neither marker-bearing JSON, nor recognizable XML, nor carries a
known SBOM extension.  The code instead returns SPDX as a silent default:
at the concrete inputs below — plain text such as "hello world" with
extension ".txt" (no JSON parse, no XML parse), and a marker-free JSON
object with the same extension — `_detect_format` returns SPDX rather than
raising, contradicting the tests of the repository itself, which expect a
"Cannot detect SBOM format" error. -/
theorem C1_detect_format_defaults_to_spdx :
    detect_format none none ".txt" = SBOMFormat.spdx ∧
    detect_format (some (Json.obj [("foo", Json.str "bar")])) none ".txt" =
      SBOMFormat.spdx := by
  exact ⟨by decide, by decide⟩

/-- Claim C2.  The claim states that the SPDX converter turns each
DEPENDS_ON entry of the relationships array into a dependency edge on the
source package, so 3 packages with 2 DEPENDS_ON relationships give total
edge count 2.  The code never derives package dependencies from
relationships (every converted package has an empty dependency list), so
the concrete 3-package, 2-relationship document converts to 3 packages
whose summed dependency edge count is 0, not 2 — contradicting the
repository test suite, which asserts the flask package gains a
requests edge from a DEPENDS_ON relationship. -/
theorem C2_spdx_converter_yields_no_dependency_edges :
    (convert_spdx_json_to_sbom_data spdxDoc3).map
        (fun d => (d.packages.length,
          (d.packages.map (fun p => p.dependencies.length)).sum)) = some (3, 0) ∧
    (convert_spdx_json_to_sbom_data spdxDoc3).map
        (fun d => (d.packages.map (fun p => p.dependencies.length)).sum) ≠
      some 2 := by
  refine ⟨rfl, ?_⟩
  decide

/-- Claim C3.  The claim states that a package name is a root iff its
adjacency-map entry is empty (zero outgoing edges).  The code computes the
opposite convention — packages that appear in no adjacency value (no
incoming edges): on the flask → requests → urllib3 fixture the root list is
exactly ["flask"], although flask has a non-empty adjacency entry, and
urllib3 (no outgoing edges, no adjacency entry) is not a root — the
repository tests assert urllib3 is a root and flask is not. -/
theorem C3_root_packages_follow_no_incoming_convention :
    (generate_tree sampleSbom).root_packages = ["flask"] ∧
    alookup (generate_tree sampleSbom).tree_structure "flask" = some ["requests"] ∧
    alookup (generate_tree sampleSbom).tree_structure "urllib3" = none ∧
    "urllib3" ∉ (generate_tree sampleSbom).root_packages := by
  refine ⟨rfl, rfl, rfl, ?_⟩
  decide

/-- Claim C4.  The claim states that a package with an empty dependency
list is reported at depth exactly 0 by both the Dependency Graph Engine and
the Analyzer.  The Analyzer half holds (urllib3 maps to 0 below), but the
viewer shares one visited set across all packages, so urllib3 — dependency
list empty, but first reached through flask → requests at traversal depth
2 — is recorded at depth 2 in the tree depth analysis, contradicting the
repository test suite, which asserts depth 0 for urllib3. -/
theorem C4_viewer_reports_nonzero_depth_for_leaf :
    (sampleSbom.packages.map (fun p => (p.name, p.dependencies.length))) =
      [("flask", 1), ("requests", 1), ("urllib3", 0)] ∧
    alookup (generate_tree sampleSbom).depth_analysis "urllib3" = some 2 ∧
    alookup (analyze sampleSbom).dependency_depth "urllib3" = some 0 :=
  ⟨rfl, rfl, rfl⟩

/-- Claim C5, counterexample.  The claim states that CycloneDX conversion
fails with FormatInvalid when the top-level `bomFormat` marker is missing;
on the concrete marker-free document the converter instead succeeds and
produces a Document whose metadata records the silently defaulted
`bomFormat` value "CycloneDX". -/
theorem C5_counterexample_missing_bomformat_succeeds :
    (convert_cyclonedx_to_sbom_data cdxNoBomFormat).isSome = true ∧
    (convert_cyclonedx_to_sbom_data cdxNoBomFormat).map (·.metadata) =
      some [("bomFormat", Json.str "CycloneDX"),
            ("specVersion", Json.str "1.5"),
            ("serialNumber", Json.null), ("version", Json.null)] :=
  ⟨rfl, rfl⟩

/-- Claim C5 (amended).  The CycloneDX converter performs no `bomFormat`
validation at all: a JSON object lacking the marker converts exactly as the
same object with `bomFormat` set to "CycloneDX" (in particular conversion
succeeds whenever the rest of the document converts, recording the default
in metadata); conversion errors arise only from malformed JSON or invalid
component content, never from the missing marker. -/
theorem C5_missing_bomformat_behaves_as_default :
    ∀ (fields : List (String × Json)),
      alookup fields "bomFormat" = none →
      convert_cyclonedx_to_sbom_data
          (Json.obj (("bomFormat", Json.str "CycloneDX") :: fields)) =
        convert_cyclonedx_to_sbom_data (Json.obj fields) := by
  intro fields h
  simp [convert_cyclonedx_to_sbom_data, alookup, getArrD, h]

/-- Witness for claim C5: the amended equivalence applied at the concrete
marker-free CycloneDX document. -/
theorem C5_missing_bomformat_behaves_as_default_witness :
    convert_cyclonedx_to_sbom_data
        (Json.obj (("bomFormat", Json.str "CycloneDX") ::
          [("specVersion", Json.str "1.5"), ("components", Json.arr [])])) =
      convert_cyclonedx_to_sbom_data
        (Json.obj [("specVersion", Json.str "1.5"),
                   ("components", Json.arr [])]) :=
  C5_missing_bomformat_behaves_as_default
    [("specVersion", Json.str "1.5"), ("components", Json.arr [])] rfl

/-- Claim C6.  The Analyzer completeness score equals the arithmetic mean
of per-package scores under the stated awards, always lies in [0, 100], and
is exactly 0 for a document with zero packages. -/
theorem C6_completeness_score_is_mean_and_bounded :
    ∀ sbom : SBOMData,
      (analyze sbom).completeness_score = completeness_mean_spec sbom ∧
      0 ≤ (analyze sbom).completeness_score ∧
      (analyze sbom).completeness_score ≤ 100 ∧
      (sbom.packages = [] → (analyze sbom).completeness_score = 0) := by
  intro sbom
  have hscore : (analyze sbom).completeness_score = calculate_completeness sbom := rfl
  rw [hscore]
  by_cases hemp : sbom.packages.isEmpty
  · unfold calculate_completeness completeness_mean_spec
    rw [if_pos hemp, if_pos hemp]
    norm_num
  · have hn : 0 < sbom.packages.length := by
      cases h : sbom.packages with
      | nil => rw [h] at hemp; simp at hemp
      | cons a l => simp
    have hSle : (sbom.packages.map package_completeness_points).sum ≤
        sbom.packages.length * 100 := by
      have := List.sum_le_card_nsmul (sbom.packages.map package_completeness_points) 100
        (by
          intro x hx
          obtain ⟨p, _, rfl⟩ := List.mem_map.mp hx
          exact package_completeness_points_le p)
      simpa [List.length_map, smul_eq_mul] using this
    unfold calculate_completeness completeness_mean_spec
    rw [if_neg hemp, if_neg hemp]
    set S : ℕ := (sbom.packages.map package_completeness_points).sum with hS
    have hcast : ((sbom.packages.map
        (fun p => (package_completeness_points p : ℚ))).sum) = (S : ℚ) := by
      rw [hS]
      push_cast
      rw [List.map_map]
      rfl
    refine ⟨?_, ?_, ?_, ?_⟩
    · rw [hcast]
      push_cast
      field_simp
      ring
    · positivity
    · have hSq : (S : ℚ) ≤ (sbom.packages.length : ℚ) * 100 := by
        exact_mod_cast hSle
      rw [div_mul_eq_mul_div, div_le_iff₀ (by positivity)]
      push_cast
      nlinarith
    · intro h
      rw [h] at hemp
      simp at hemp

/-- Witness for claim C6: the empty-document branch forces score exactly 0,
shown by discharging the emptiness hypothesis at the concrete empty
document (and the lower bound instantiated at the three-package fixture). -/
theorem C6_completeness_score_witness :
    (analyze docEmpty).completeness_score = 0 ∧
    0 ≤ (analyze sampleSbom).completeness_score :=
  ⟨(C6_completeness_score_is_mean_and_bounded docEmpty).2.2.2 rfl,
   (C6_completeness_score_is_mean_and_bounded sampleSbom).2.1⟩

/-- Claim C7.  The claim states that the vulnerability histogram is keyed
by the severity string lowercased.  The code keys by the severity string
as-is (`vuln.severity or "unknown"`, no case folding): a document whose
single vulnerability has severity "HIGH" produces the key "HIGH" and no
entry "high" — contradicting the repository tests, which assert
`result.vulnerability_summary["high"] == 1` for that input. -/
theorem C7_vulnerability_histogram_keeps_case :
    docHighVuln.packages.map (fun p => p.vulnerabilities.map (·.severity)) =
      [[some "HIGH"]] ∧
    (analyze docHighVuln).vulnerability_summary = [("HIGH", 1)] ∧
    alookup (analyze docHighVuln).vulnerability_summary "high" = none :=
  ⟨rfl, rfl, rfl⟩

/-- Claim C8.  Package lookup tries case-insensitive exact matching in
document order first — when the query equals some package name up to case,
the result is the projection of the first such package, for every ratio
function alike (fuzzy matching is never consulted) — and when no exact
match exists and every candidate scores below the 0.6 cutoff, the lookup
returns the valid empty result (None), not an error. -/
theorem C8_lookup_exact_first_fuzzy_fallback :
    ∀ (ratio : String → String → ℚ) (sbom : SBOMData) (q : String),
      (∀ (l1 l2 : List Package) (p : Package),
         sbom.packages = l1 ++ p :: l2 →
         strToLower p.name = strToLower q →
         (∀ r ∈ l1, strToLower r.name ≠ strToLower q) →
         get_package_info ratio sbom q = some (create_package_info p sbom)) ∧
      ((∀ p ∈ sbom.packages, strToLower p.name ≠ strToLower q) →
       (∀ p ∈ sbom.packages, ratio (strToLower q) (strToLower p.name) < 3 / 5) →
       get_package_info ratio sbom q = none) := by
  intro ratio sbom q
  constructor
  · intro l1 l2 p hsplit hp hl1
    unfold get_package_info find_exact_match
    rw [hsplit, find_exact_loop_append q l1 l2 p hp hl1]
  · intro hex hrat
    unfold get_package_info find_exact_match
    rw [find_exact_loop_none q sbom.packages hex,
      find_fuzzy_match_none ratio sbom q hrat]

/-- Witness for claim C8: looking up "FLASK" in a document holding the
package "Flask" succeeds through the exact branch (with a ratio function
that scores everything 0, so fuzzy matching could never have produced it),
and looking up "zzz" with that ratio function returns None. -/
theorem C8_lookup_witness :
    get_package_info (fun _ _ => 0) docLookup "FLASK" =
      some { name := "Flask", version := some "3.0.0" } ∧
    get_package_info (fun _ _ => 0) docLookup "zzz" = none := by
  constructor
  · have := (C8_lookup_exact_first_fuzzy_fallback (fun _ _ => 0) docLookup "FLASK").1
      [] [] { id := "pkg1", name := "Flask", version := some "3.0.0" } rfl
      (by decide) (by intro r hr; cases hr)
    rw [this]
    rfl
  · exact (C8_lookup_exact_first_fuzzy_fallback (fun _ _ => 0) docLookup "zzz").2
      (by decide) (by intro p _; norm_num)

/-- Claim C9.  The Verifier result is valid iff the accumulated issues list
is empty after all checks, and for a document with an empty name and no
packages the result is invalid with an issue mentioning the missing
document name. -/
theorem C9_is_valid_iff_issues_empty :
    (∀ sbom : SBOMData, (verify sbom).is_valid = true ↔ (verify sbom).issues = []) ∧
    (verify docNoName).is_valid = false ∧
    "Missing document name" ∈ (verify docNoName).issues := by
  refine ⟨?_, by decide, by decide⟩
  intro sbom
  show ((verify sbom).issues.length == 0) = true ↔ _
  simp [List.length_eq_zero]

/-- Claim C10.  No Verifier check ever appends to the warnings list: the
returned VerificationResult has an empty warnings field for every input
document. -/
theorem C10_verifier_warnings_always_empty :
    ∀ sbom : SBOMData, (verify sbom).warnings = [] :=
  fun _ => rfl
